import Mathlib

/-!
Shallow embedding of the gVisor netstack core (`pkg/tcpip/stack/stack.go`):
the stack's route table, NIC map and lifecycle, route resolution
(`FindRoute`), raw/packet endpoint construction, and local-address checks.
Go maps are embedded as association lists whose order stands for the map's
iteration order; machine integers are `Nat` (no arithmetic overflows are
relevant to the operations embedded here); Go's `(value, error)` returns
become pairs with `Option`/`Except` errors.
-/

namespace GvisorStack

/-- Abstract error kinds of `pkg/tcpip` (`*tcpip.Err...` values). `panicked`
stands for a `panic(...)` in the source, which never returns a value. -/
inductive StackError where
  | unknownProtocol
  | unknownNICID
  | duplicateNICID
  | invalidNICID
  | notSupported
  | notPermitted
  | badLocalAddress
  | networkUnreachable
  | hostUnreachable
  | noSuchFile
  | aborted
  | panicked
deriving DecidableEq, Repr

/-- `tcpip.Address`: a byte string. Length 0 is the unspecified address,
length 4 an IPv4 address, length 16 an IPv6 address. -/
structure Address where
  bytes : List Nat
deriving DecidableEq, Repr

/-- `Address.BitLen()`. -/
def Address.bitLen (a : Address) : Nat := 8 * a.bytes.length

/-- The zero `tcpip.Address{}`. -/
def Address.empty : Address := ⟨[]⟩

/-- `header.IPv4Broadcast` (255.255.255.255). -/
def ipv4Broadcast : Address := ⟨[255, 255, 255, 255]⟩

/-- `header.IPv6Loopback` (::1). -/
def ipv6Loopback : Address := ⟨List.replicate 15 0 ++ [1]⟩

/-- `header.IPv4ProtocolNumber` (0x0800). -/
def ipv4ProtocolNumber : Nat := 0x0800

/-- `header.IPv6ProtocolNumber` (0x86DD). -/
def ipv6ProtocolNumber : Nat := 0x86DD

/-- Modelled from the spec: the `header` package's IPv4 multicast
classification (`header.IsV4MulticastAddress`, 224.0.0.0/4); the spec's
FindRoute step 2 classifies the remote address as multicast. -/
def isV4MulticastAddress (a : Address) : Bool :=
  a.bytes.length == 4 && (a.bytes.headD 0) &&& 0xf0 == 0xe0

/-- Modelled from the spec: `header.IsV6MulticastAddress` (ff00::/8). -/
def isV6MulticastAddress (a : Address) : Bool :=
  a.bytes.length == 16 && a.bytes.headD 0 == 0xff

/-- Modelled from the spec: `header.IsV4LoopbackAddress` (127.0.0.0/8). -/
def isV4LoopbackAddress (a : Address) : Bool :=
  a.bytes.length == 4 && a.bytes.headD 0 == 127

/-- Modelled from the spec: `header.IsV6LoopbackAddress` (::1). -/
def isV6LoopbackAddress (a : Address) : Bool :=
  a == ipv6Loopback

/-- Modelled from the spec: `header.IsV6LinkLocalUnicastAddress`
(fe80::/10); the spec's FindRoute step 2 classifies the remote address as
link-local (v6 unicast). -/
def isV6LinkLocalUnicastAddress (a : Address) : Bool :=
  a.bytes.length == 16 && a.bytes.headD 0 == 0xfe && (a.bytes.getD 1 0) &&& 0xc0 == 0x80

/-- Modelled from the spec: `header.IsV6LinkLocalMulticastAddress`
(ff02::/16 with interface-local scope nibble 2). -/
def isV6LinkLocalMulticastAddress (a : Address) : Bool :=
  a.bytes.length == 16 && a.bytes.headD 0 == 0xff && (a.bytes.getD 1 0) &&& 0x0f == 0x02

/-- Bit `i` of an address, most significant bit of the first byte first. -/
def Address.bit (a : Address) (i : Nat) : Bool :=
  Nat.testBit (a.bytes.getD (i / 8) 0) (7 - i % 8)

/-- `tcpip.Subnet`: an address plus a mask, here kept as a prefix length
(`Subnet.Prefix()` returns `prefixLen`). -/
structure Subnet where
  address : Address
  prefixLen : Nat
deriving DecidableEq, Repr

/-- `Subnet.Contains(addr)`: same family and the first `prefixLen` bits of
`addr` agree with the subnet's address. -/
def Subnet.contains (s : Subnet) (a : Address) : Bool :=
  a.bytes.length == s.address.bytes.length &&
    (List.range s.prefixLen).all fun i => a.bit i == s.address.bit i

/-- `tcpip.Route`: a route table entry. -/
structure Route where
  destination : Subnet
  gateway : Address
  nic : Nat
  sourceHint : Address
  mtu : Nat
deriving DecidableEq, Repr

/-- `Stack.addRouteLocked` (stack.go:772-783): insert the route before the
first entry whose destination prefix length is strictly smaller, else push
it to the back. -/
def addRouteLocked (table : List Route) (route : Route) : List Route :=
  match table with
  | [] => [route]
  | n :: rest =>
    if n.destination.prefixLen < route.destination.prefixLen then
      route :: n :: rest
    else
      n :: addRouteLocked rest route

/-- `Stack.removeRoutesLocked` (stack.go:794-806): walk the table front to
back, removing every entry the predicate matches; return the surviving
table and the number of entries removed. -/
def removeRoutesLocked (table : List Route) (m : Route → Bool) : List Route × Nat :=
  match table with
  | [] => ([], 0)
  | r :: rest =>
    let (t, c) := removeRoutesLocked rest m
    if m r then (t, c + 1) else (r :: t, c)

/-- A `LinkEndpoint` as far as the embedded operations observe it: whether
`Attach` has bound it to a dispatcher and whether it has been closed. -/
structure LinkEP where
  attached : Bool
  closed : Bool
deriving DecidableEq, Repr

/-- A `stack.nic`: per-interface state. `addrs` is the per-protocol
assigned address set (`(netProto, address)` pairs, primary order first).
`coordinatorDel` embeds `nic.Primary`: `none` when the NIC has no
coordinator, `some e?` when `nic.Primary != nil` and the coordinator's
external `CoordinatorNIC.DelNIC` call would return `e?` (its signature
returns a `tcpip.Error`). `removeErr` is the error the external
`nic.remove` teardown would return. -/
structure NICState where
  id : Nat
  name : String
  enabled : Bool
  addrs : List (Nat × Address)
  forwardingProtos : List Nat
  coordinatorDel : Option (Option StackError)
  removeErr : Option StackError
  link : LinkEP
deriving DecidableEq, Repr

/-- Modelled from the spec: `nic.hasAddress(proto, addr)` of the per-NIC
address set (nic.go is not under src/). -/
def NICState.hasAddress (n : NICState) (proto : Nat) (addr : Address) : Bool :=
  n.addrs.any fun pa => pa.1 == proto && pa.2 == addr

/-- Modelled from the spec: `nic.checkLocalAddress` checks the per-NIC
address set for the address (nic.go is not under src/). -/
def NICState.checkLocalAddress (n : NICState) (proto : Nat) (addr : Address) : Bool :=
  n.addrs.any fun pa => pa.1 == proto && pa.2 == addr

/-- Modelled from the spec: `nic.primaryEndpoint(proto, remoteAddr, srcHint)`
returns a primary assigned address endpoint for the protocol; embedded as
the first address assigned for the protocol (nic.go is not under src/). -/
def NICState.primaryEndpoint (n : NICState) (proto : Nat)
    (_remoteAddr _srcHint : Address) : Option Address :=
  (n.addrs.find? fun pa => pa.1 == proto).map Prod.snd

/-- Modelled from the spec: `nic.findEndpoint(proto, localAddr, kind)`
returns the endpoint of `localAddr` when it is assigned on the NIC
(nic.go is not under src/). -/
def NICState.findEndpoint (n : NICState) (proto : Nat) (localAddr : Address) : Option Address :=
  if n.addrs.any (fun pa => pa.1 == proto && pa.2 == localAddr) then some localAddr else none

/-- Modelled from the spec: `nic.getAddressOrCreateTempInner(proto, addr,
false, NeverPrimaryEndpoint)` looks the address up in the per-NIC address
set without creating a temporary endpoint (nic.go is not under src/). -/
def NICState.getAddressOrCreateTempInner (n : NICState) (proto : Nat) (addr : Address) :
    Option Address :=
  if n.addrs.any (fun pa => pa.1 == proto && pa.2 == addr) then some addr else none

/-- `NICOptions` (stack.go:868-892), the fields the embedded operations
read. -/
structure NICOptions where
  name : String
  disabled : Bool
deriving DecidableEq, Repr

/-- The `stack.Stack` state the embedded operations touch. `nics` embeds
the `map[tcpip.NICID]*nic` as an association list (list order standing for
map iteration order); `routeTable` embeds the `tcpip.RouteList` front to
back. -/
structure StackState where
  networkProtocols : List Nat
  transportProtocols : List Nat
  hasRawFactory : Bool
  handleLocal : Bool
  defaultForwardingEnabled : List Nat
  nics : List NICState
  routeTable : List Route
  nicIDGen : Nat
deriving DecidableEq, Repr

/-- `s.nics[id]` map lookup. -/
def StackState.findNIC (s : StackState) (id : Nat) : Option NICState :=
  s.nics.find? fun n => n.id == id

/-- `Stack.HasNIC` (stack.go:1156-1162). -/
def StackState.hasNIC (s : StackState) (id : Nat) : Bool :=
  (s.findNIC id).isSome

/-- `Stack.CheckNetworkProtocol` (stack.go:1627-1630). -/
def StackState.checkNetworkProtocol (s : StackState) (protocol : Nat) : Bool :=
  s.networkProtocols.contains protocol

/-- `Stack.SetRouteTable` (stack.go:745-752): reset the table, then insert
the given routes in order with `addRouteLocked`. -/
def StackState.setRouteTable (s : StackState) (table : List Route) : StackState :=
  { s with routeTable := table.foldl addRouteLocked [] }

/-- `Stack.GetRouteTable` (stack.go:755-763): the table front to back. -/
def StackState.getRouteTable (s : StackState) : List Route :=
  s.routeTable

/-- `Stack.AddRoute` (stack.go:765-770). -/
def StackState.addRoute (s : StackState) (route : Route) : StackState :=
  { s with routeTable := addRouteLocked s.routeTable route }

/-- `Stack.RemoveRoutes` (stack.go:787-792): returns the number of routes
removed. -/
def StackState.removeRoutes (s : StackState) (m : Route → Bool) : Nat × StackState :=
  let (t, c) := removeRoutesLocked s.routeTable m
  (c, { s with routeTable := t })

/-- `newNIC` plus the `defaultForwardingEnabled` application performed by
`CreateNICWithOptions` (stack.go:932-937); the fresh NIC starts disabled
with no addresses and no coordinator. -/
def newNIC (s : StackState) (id : Nat) (ep : LinkEP) (opts : NICOptions) : NICState :=
  { id := id, name := opts.name, enabled := false, addrs := [],
    forwardingProtos := s.defaultForwardingEnabled,
    coordinatorDel := none, removeErr := none, link := ep }

/-- Modelled from the spec: `nic.enable()` attaches the link endpoint if it
has not been attached yet and marks the NIC enabled (nic.go is not under
src/; per-protocol enable errors are not modelled, so enable succeeds). -/
def NICState.enable (n : NICState) : NICState :=
  { n with enabled := true, link := { n.link with attached := true } }

/-- `Stack.CreateNICWithOptions` (stack.go:906-947). Returns the error (or
`none`) and the resulting stack. -/
def StackState.createNICWithOptions (s : StackState) (id : Nat) (ep : LinkEP)
    (opts : NICOptions) : Option StackError × StackState :=
  if id == 0 then (some .invalidNICID, s)
  else if (s.findNIC id).isSome then (some .duplicateNICID, s)
  else if opts.name != "" && s.nics.any (fun n => n.name == opts.name) then
    (some .duplicateNICID, s)
  else
    let n := newNIC s id ep opts
    let n := if !opts.disabled then n.enable else n
    (none, { s with nics := s.nics ++ [n] })

/-- `Stack.RemoveNIC`/`removeNICLocked` (stack.go:1012-1052): delete the
NIC from the map, detach it from any coordinator (an external `DelNIC`
error aborts before the route purge), purge all routes with `NIC == id`,
then run the NIC's teardown whose deferred action closes the link
endpoint. -/
def StackState.removeNIC (s : StackState) (id : Nat) : Option StackError × StackState :=
  match s.findNIC id with
  | none => (some .unknownNICID, s)
  | some nic =>
    let s1 := { s with nics := s.nics.filter fun n => n.id != id }
    match nic.coordinatorDel with
    | some (some e) => (some e, s1)
    | _ =>
      let s2 := { s1 with routeTable := s1.routeTable.filter fun r => r.nic != id }
      match nic.removeErr with
      | some e => (some e, s2)
      | none => (none, s2)

/-- `Stack.CheckLocalAddress` (stack.go:1646-1679). -/
def StackState.checkLocalAddress (s : StackState) (nicID : Nat) (protocol : Nat)
    (addr : Address) : Nat :=
  if nicID != 0 then
    match s.findNIC nicID with
    | none => 0
    | some nic =>
      if protocol == ipv4ProtocolNumber then nic.id
      else if nic.checkLocalAddress protocol addr then nic.id
      else 0
  else
    match s.nics.find? (fun nic => nic.checkLocalAddress protocol addr) with
    | some nic => nic.id
    | none => 0

/-- The kinds of endpoint the factories of `NewRawEndpoint` and
`NewPacketEndpoint` produce; the endpoints themselves are external. -/
inductive EndpointKind where
  | unassociatedRaw
  | raw
  | packet
deriving DecidableEq, Repr

/-- `Stack.NewRawEndpoint` (stack.go:832-851). -/
def StackState.newRawEndpoint (s : StackState) (transport : Nat) (_network : Nat)
    (associated : Bool) : Except StackError EndpointKind :=
  if !s.hasRawFactory then .error .notPermitted
  else if !associated then .ok .unassociatedRaw
  else if s.transportProtocols.contains transport then .ok .raw
  else .error .unknownProtocol

/-- `Stack.NewPacketEndpoint` (stack.go:853-861). -/
def StackState.newPacketEndpoint (s : StackState) (_cooked : Bool) (_netProto : Nat) :
    Except StackError EndpointKind :=
  if !s.hasRawFactory then .error .notPermitted
  else .ok .packet

/-- The `peer` argument of `SetNICStack`: either the receiver stack itself
(`s == peer` pointer comparison) or a distinct stack. -/
inductive PeerRef where
  | self
  | other (peer : StackState)
deriving DecidableEq, Repr

/-- `Stack.SetNICStack` (stack.go:2403-2431): move a NIC to another stack.
Returns the Go `(NICID, Error)` pair, the receiver's new state and the
peer's new state. When the peer is the receiver itself the call returns
`(id, nil)` at once. Otherwise the NIC is deleted, its routes purged, the
NIC dismantled without closing the link endpoint (`remove(false)`), and the
link endpoint re-created on the peer under a freshly allocated id
(`NextNICID`, stack.go:443-450). -/
def StackState.setNICStack (s : StackState) (id : Nat) (peer : PeerRef) :
    (Nat × Option StackError) × StackState × PeerRef :=
  match s.findNIC id with
  | none => ((0, some .unknownNICID), s, peer)
  | some nic =>
    match peer with
    | .self => ((id, none), s, .self)
    | .other p =>
      let s1 := { s with nics := s.nics.filter fun n => n.id != id }
      let (_, s2) := s1.removeRoutes fun r => r.nic == id
      match nic.removeErr with
      | some e => ((0, some e), s2, .other p)
      | none =>
        let newId := p.nicIDGen + 1
        let p1 := { p with nicIDGen := newId }
        let (res, p2) := p1.createNICWithOptions newId nic.link
          { name := nic.name, disabled := false }
        ((newId, res), s2, .other p2)

/-- The route `FindRoute` and its helpers build (`stack.Route`, route.go is
not under src/): the fields of the constructed route that the embedded
operations and the spec observe. -/
structure RouteInfo where
  netProto : Nat
  localAddr : Address
  remoteAddr : Address
  localAddressNIC : Nat
  outgoingNIC : Nat
  gateway : Address
  mtu : Nat
deriving DecidableEq, Repr

/-- Modelled from the spec: `makeRoute` (route.go, not under src/) builds a
route from the given fields; an unspecified local address is filled in from
the chosen address endpoint. -/
def makeRoute (netProto : Nat) (gateway localAddr remoteAddr : Address)
    (outgoingNIC localAddressNIC : Nat) (epAddr : Address)
    (_handleLocal _multicastLoop : Bool) (mtu : Nat) : RouteInfo :=
  let la := if localAddr.bitLen == 0 then epAddr else localAddr
  { netProto := netProto, localAddr := la, remoteAddr := remoteAddr,
    localAddressNIC := localAddressNIC, outgoingNIC := outgoingNIC,
    gateway := gateway, mtu := mtu }

/-- Modelled from the spec: `makeLocalRoute` (route.go, not under src/)
builds a local route — one whose packets never leave the stack — with an
empty gateway. -/
def makeLocalRoute (netProto : Nat) (localAddr remoteAddr : Address)
    (outgoingNIC localAddressNIC : Nat) (epAddr : Address) : RouteInfo :=
  let la := if localAddr.bitLen == 0 then epAddr else localAddr
  { netProto := netProto, localAddr := la, remoteAddr := remoteAddr,
    localAddressNIC := localAddressNIC, outgoingNIC := outgoingNIC,
    gateway := Address.empty, mtu := 0 }

/-- Modelled from the spec: `Route.IsOutboundBroadcast` (route.go, not
under src/); the spec's local-broadcast classification is the IPv4
broadcast address 255.255.255.255. -/
def RouteInfo.isOutboundBroadcast (r : RouteInfo) : Bool :=
  r.remoteAddr == ipv4Broadcast

/-- Modelled from the spec: `constructAndValidateRoute` (route.go, not
under src/). Per the spec's FindRoute step 6 (`onlyGlobalAddresses`),
cross-NIC routes are only constructed when the local address is global:
construction fails when the local-address NIC differs from the outgoing
NIC and the effective local address is link-local. -/
def constructAndValidateRoute (netProto : Nat) (epAddr : Address)
    (localAddressNIC outgoingNIC : Nat) (gateway localAddr remoteAddr : Address)
    (handleLocal multicastLoop : Bool) (mtu : Nat) : Option RouteInfo :=
  let la := if localAddr.bitLen == 0 then epAddr else localAddr
  if localAddressNIC != outgoingNIC && isV6LinkLocalUnicastAddress la then none
  else
    let ra := if remoteAddr.bitLen == 0 then la else remoteAddr
    some (makeRoute netProto gateway la ra outgoingNIC localAddressNIC epAddr
      handleLocal multicastLoop mtu)

/-- `Stack.getAddressEP` (stack.go:1311-1316): a primary endpoint when no
local address is given, else the endpoint assigned to the local address. -/
def StackState.getAddressEP (_s : StackState) (nic : NICState)
    (localAddr remoteAddr srcHint : Address) (netProto : Nat) : Option Address :=
  if localAddr.bitLen == 0 then nic.primaryEndpoint netProto remoteAddr srcHint
  else nic.findEndpoint netProto localAddr

/-- `Stack.findLocalRouteFromNICRLocked` (stack.go:1337-1386). -/
def StackState.findLocalRouteFromNIC (s : StackState) (localAddressNIC : NICState)
    (localAddr remoteAddr : Address) (netProto : Nat) : Option RouteInfo :=
  match localAddressNIC.getAddressOrCreateTempInner netProto localAddr with
  | none => none
  | some epAddr =>
    let outgoingNIC : Option NICState :=
      if localAddressNIC.hasAddress netProto remoteAddr then some localAddressNIC
      else s.nics.find? fun nic => nic.hasAddress netProto remoteAddr
    match outgoingNIC with
    | none => none
    | some out =>
      let r := makeLocalRoute netProto localAddr remoteAddr out.id localAddressNIC.id epAddr
      if r.isOutboundBroadcast then none else some r

/-- `Stack.findLocalRouteRLocked` (stack.go:1388-1414). -/
def StackState.findLocalRoute (s : StackState) (localAddressNICID : Nat)
    (localAddr remoteAddr : Address) (netProto : Nat) : Option RouteInfo :=
  let la := if localAddr.bitLen == 0 then remoteAddr else localAddr
  if localAddressNICID == 0 then
    s.nics.findSome? fun nic => s.findLocalRouteFromNIC nic la remoteAddr netProto
  else
    match s.findNIC localAddressNICID with
    | some nic => s.findLocalRouteFromNIC nic la remoteAddr netProto
    | none => none

/-- `isNICForwarding` (stack.go:1421-1433): whether forwarding is enabled
for the protocol on the NIC (protocols that do not support forwarding
count as disabled). -/
def isNICForwarding (nic : NICState) (proto : Nat) : Bool :=
  nic.forwardingProtos.contains proto

/-- `Stack.findRouteWithLocalAddrFromAnyInterfaceRLocked`
(stack.go:1435-1455). -/
def StackState.findRouteWithLocalAddrFromAnyInterface (s : StackState)
    (outgoingNIC : NICState) (localAddr remoteAddr srcHint gateway : Address)
    (netProto : Nat) (multicastLoop : Bool) (mtu : Nat) : Option RouteInfo :=
  s.nics.findSome? fun aNIC =>
    match s.getAddressEP aNIC localAddr remoteAddr srcHint netProto with
    | none => none
    | some epAddr =>
      constructAndValidateRoute netProto epAddr aNIC.id outgoingNIC.id gateway
        localAddr remoteAddr s.handleLocal multicastLoop mtu

/-- The remote-address classifications of `FindRoute` (stack.go:1477):
link-local (v6 unicast or multicast). -/
def remoteIsLinkLocal (ra : Address) : Bool :=
  isV6LinkLocalUnicastAddress ra || isV6LinkLocalMulticastAddress ra

/-- `FindRoute`'s local-broadcast classification (stack.go:1478). -/
def remoteIsLocalBroadcast (ra : Address) : Bool :=
  ra == ipv4Broadcast

/-- `FindRoute`'s multicast classification (stack.go:1479). -/
def remoteIsMulticast (ra : Address) : Bool :=
  isV4MulticastAddress ra || isV6MulticastAddress ra

/-- `FindRoute`'s loopback classification (stack.go:1480). -/
def remoteIsLoopback (ra : Address) : Bool :=
  isV4LoopbackAddress ra || isV6LoopbackAddress ra

/-- `needRoute` (stack.go:1481): a route-table route is needed iff the
remote is none of local-broadcast, multicast, link-local, loopback. -/
def remoteNeedsRoute (ra : Address) : Bool :=
  !(remoteIsLocalBroadcast ra || remoteIsMulticast ra || remoteIsLinkLocal ra
    || remoteIsLoopback ra)

/-- Outcome of the route-table loop of `FindRoute` (stack.go:1517-1575):
either an early return with a route, a `panic` in the source, or loop
completion carrying the remembered `chosenRoute` (the source's zero-route
sentinel is embedded as `none`; a table entry can only be remembered after
its NIC was found in the map, so it never equals the zero route in a stack
whose NIC ids are non-zero). -/
inductive RouteSearch where
  | found (r : RouteInfo)
  | panicked
  | done (chosen : Option Route)
deriving DecidableEq, Repr

/-- The route-table loop of `FindRoute` (stack.go:1519-1575), front to
back over the table. For each entry that matches the remote address and
whose NIC is present and enabled: when the entry's NIC agrees with any
explicit `id`, obtaining an address endpoint produces the route (the
source panics if construction then fails); otherwise, with forwarding
enabled on the NIC, `onlyGlobalAddresses`, and no route remembered yet,
locally-generated traffic remembers the entry and keeps iterating while
forwarded traffic attempts a cross-NIC construction at once. -/
def StackState.routeTableLoop (s : StackState) (id : Nat)
    (localAddr remoteAddr : Address) (netProto : Nat)
    (multicastLoop needRoute onlyGlobalAddresses : Bool) :
    List Route → Option Route → RouteSearch
  | [], chosen => .done chosen
  | route :: rest, chosen =>
    if remoteAddr.bitLen != 0 && !route.destination.contains remoteAddr then
      s.routeTableLoop id localAddr remoteAddr netProto multicastLoop needRoute
        onlyGlobalAddresses rest chosen
    else
      match s.findNIC route.nic with
      | none =>
        s.routeTableLoop id localAddr remoteAddr netProto multicastLoop needRoute
          onlyGlobalAddresses rest chosen
      | some nic =>
        if !nic.enabled then
          s.routeTableLoop id localAddr remoteAddr netProto multicastLoop needRoute
            onlyGlobalAddresses rest chosen
        else
          let direct : Option RouteSearch :=
            if id == 0 || id == route.nic then
              match s.getAddressEP nic localAddr remoteAddr route.sourceHint netProto with
              | some epAddr =>
                let gw := if needRoute then route.gateway else Address.empty
                match constructAndValidateRoute netProto epAddr nic.id nic.id gw
                    localAddr remoteAddr s.handleLocal multicastLoop route.mtu with
                | some r => some (.found r)
                | none => some .panicked
              | none => none
            else none
          match direct with
          | some out => out
          | none =>
            let locallyGenerated := id != 0 || localAddr != Address.empty
            if onlyGlobalAddresses && chosen.isNone && isNICForwarding nic netProto then
              if locallyGenerated then
                s.routeTableLoop id localAddr remoteAddr netProto multicastLoop needRoute
                  onlyGlobalAddresses rest (some route)
              else
                match s.findRouteWithLocalAddrFromAnyInterface nic localAddr remoteAddr
                    route.sourceHint route.gateway netProto multicastLoop route.mtu with
                | some r => .found r
                | none =>
                  s.routeTableLoop id localAddr remoteAddr netProto multicastLoop needRoute
                    onlyGlobalAddresses rest chosen
            else
              s.routeTableLoop id localAddr remoteAddr netProto multicastLoop needRoute
                onlyGlobalAddresses rest chosen

/-- `Stack.FindRoute` (stack.go:1457-1623). -/
def StackState.findRoute (s : StackState) (id : Nat) (localAddr remoteAddr : Address)
    (netProto : Nat) (multicastLoop : Bool) : Except StackError RouteInfo :=
  if !(s.checkNetworkProtocol netProto) then .error .unknownProtocol
  else
    let needRoute := remoteNeedsRoute remoteAddr
    let fallback : Except StackError RouteInfo :=
      if needRoute then .error .hostUnreachable
      else if isV6LoopbackAddress remoteAddr then .error .badLocalAddress
      else .error .networkUnreachable
    let localRoute : Option RouteInfo :=
      if s.handleLocal && !remoteIsMulticast remoteAddr
          && !remoteIsLocalBroadcast remoteAddr then
        s.findLocalRoute id localAddr remoteAddr netProto
      else none
    match localRoute with
    | some r => .ok r
    | none =>
      if id != 0 && !needRoute then
        let directFail : Except StackError RouteInfo :=
          if remoteIsLoopback remoteAddr then .error .badLocalAddress
          else .error .networkUnreachable
        match s.findNIC id with
        | some nic =>
          if nic.enabled then
            match s.getAddressEP nic localAddr remoteAddr Address.empty netProto with
            | some epAddr =>
              .ok (makeRoute netProto Address.empty localAddr remoteAddr nic.id nic.id
                epAddr s.handleLocal multicastLoop 0)
            | none => directFail
          else directFail
        | none => directFail
      else
        let onlyGlobalAddresses := !isV6LinkLocalUnicastAddress localAddr
          && !remoteIsLinkLocal remoteAddr
        match s.routeTableLoop id localAddr remoteAddr netProto multicastLoop needRoute
            onlyGlobalAddresses s.routeTable none with
        | .found r => .ok r
        | .panicked => .error .panicked
        | .done none => fallback
        | .done (some chosenRoute) =>
          match s.findNIC chosenRoute.nic with
          | none => .error .panicked
          | some nic =>
            let gw := if needRoute then chosenRoute.gateway else Address.empty
            if id != 0 then
              match s.findNIC id with
              | some aNIC =>
                match s.getAddressEP aNIC localAddr remoteAddr chosenRoute.sourceHint
                    netProto with
                | some epAddr =>
                  match constructAndValidateRoute netProto epAddr aNIC.id nic.id gw
                      localAddr remoteAddr s.handleLocal multicastLoop chosenRoute.mtu with
                  | some r => .ok r
                  | none => .error .hostUnreachable
                | none => .error .hostUnreachable
              | none => .error .hostUnreachable
            else
              match s.findRouteWithLocalAddrFromAnyInterface nic localAddr remoteAddr
                  chosenRoute.sourceHint gw netProto multicastLoop chosenRoute.mtu with
              | some r => .ok r
              | none => fallback

/-! ## Route table lemmas -/

/-- The route table invariant (spec invariant 3): destination prefix
lengths are non-increasing front to back. -/
def routeTableSorted (t : List Route) : Prop :=
  t.Pairwise fun a b => b.destination.prefixLen ≤ a.destination.prefixLen

instance (t : List Route) : Decidable (routeTableSorted t) :=
  inferInstanceAs (Decidable (t.Pairwise _))

lemma mem_addRouteLocked {t : List Route} {route a : Route} :
    a ∈ addRouteLocked t route ↔ a ∈ t ∨ a = route := by
  induction t with
  | nil => simp [addRouteLocked]
  | cons n rest ih =>
    simp only [addRouteLocked]
    split
    · simp only [List.mem_cons]
      tauto
    · simp only [List.mem_cons, ih]
      tauto

lemma sorted_addRouteLocked {t : List Route} (route : Route) (h : routeTableSorted t) :
    routeTableSorted (addRouteLocked t route) := by
  induction t with
  | nil => simp [addRouteLocked, routeTableSorted]
  | cons n rest ih =>
    rw [routeTableSorted, List.pairwise_cons] at h
    obtain ⟨hn, hrest⟩ := h
    simp only [addRouteLocked]
    split
    · rename_i hlt
      rw [routeTableSorted, List.pairwise_cons]
      refine ⟨?_, ?_⟩
      · intro b hb
        rcases List.mem_cons.mp hb with hb | hb
        · subst hb; omega
        · have := hn b hb; omega
      · rw [List.pairwise_cons]
        exact ⟨hn, hrest⟩
    · rename_i hge
      rw [routeTableSorted, List.pairwise_cons]
      refine ⟨?_, ih hrest⟩
      intro b hb
      rcases mem_addRouteLocked.mp hb with hb | hb
      · exact hn b hb
      · subst hb; omega

lemma sorted_foldl_addRouteLocked (l : List Route) (init : List Route)
    (h : routeTableSorted init) : routeTableSorted (l.foldl addRouteLocked init) := by
  induction l generalizing init with
  | nil => exact h
  | cons r rest ih => exact ih _ (sorted_addRouteLocked r h)

/-- `addRouteLocked` splits the table at the first entry with a strictly
smaller prefix length and puts the new route there. -/
lemma addRouteLocked_split (t : List Route) (route : Route) :
    ∃ t1 t2, t = t1 ++ t2 ∧ addRouteLocked t route = t1 ++ route :: t2 := by
  induction t with
  | nil => exact ⟨[], [], rfl, rfl⟩
  | cons n rest ih =>
    by_cases hlt : n.destination.prefixLen < route.destination.prefixLen
    · exact ⟨[], n :: rest, rfl, by simp [addRouteLocked, hlt]⟩
    · obtain ⟨t1, t2, heq, hadd⟩ := ih
      exact ⟨n :: t1, t2, by simp [heq], by simp [addRouteLocked, hlt, hadd]⟩

/-- In a sorted table, `addRouteLocked` places the route after exactly the
entries with larger-or-equal prefix length and before exactly the entries
with strictly smaller prefix length. -/
lemma addRouteLocked_split_sorted (t : List Route) (route : Route)
    (h : routeTableSorted t) :
    ∃ t1 t2, t = t1 ++ t2 ∧ addRouteLocked t route = t1 ++ route :: t2 ∧
      (∀ x ∈ t1, route.destination.prefixLen ≤ x.destination.prefixLen) ∧
      (∀ x ∈ t2, x.destination.prefixLen < route.destination.prefixLen) := by
  induction t with
  | nil => exact ⟨[], [], rfl, rfl, by simp, by simp⟩
  | cons n rest ih =>
    rw [routeTableSorted, List.pairwise_cons] at h
    obtain ⟨hn, hrest⟩ := h
    by_cases hlt : n.destination.prefixLen < route.destination.prefixLen
    · refine ⟨[], n :: rest, rfl, by simp [addRouteLocked, hlt], by simp, ?_⟩
      intro x hx
      rcases List.mem_cons.mp hx with hx | hx
      · subst hx; omega
      · have := hn x hx; omega
    · obtain ⟨t1, t2, heq, hadd, h1, h2⟩ := ih hrest
      refine ⟨n :: t1, t2, by simp [heq], by simp [addRouteLocked, hlt, hadd], ?_, h2⟩
      intro x hx
      rcases List.mem_cons.mp hx with hx | hx
      · subst hx; omega
      · exact h1 x hx

/-- `removeRoutesLocked` keeps exactly the entries the predicate rejects,
in order, and counts the entries it removes. -/
lemma removeRoutesLocked_eq (t : List Route) (m : Route → Bool) :
    removeRoutesLocked t m = (t.filter (fun r => !(m r)), (t.filter m).length) := by
  induction t with
  | nil => rfl
  | cons r rest ih =>
    simp only [removeRoutesLocked, ih]
    by_cases hm : m r
    · simp [hm, List.filter_cons]
    · simp [hm, List.filter_cons]

/-! ## Sample data for witnesses and counterexamples -/

/-- A stack with no NICs, no routes and no raw endpoint factory. -/
def emptyStack : StackState :=
  { networkProtocols := [ipv4ProtocolNumber, ipv6ProtocolNumber],
    transportProtocols := [6, 17], hasRawFactory := false, handleLocal := false,
    defaultForwardingEnabled := [], nics := [], routeTable := [], nicIDGen := 0 }

/-- `emptyStack` with the given route table installed directly. -/
def stackWithTable (t : List Route) : StackState :=
  { emptyStack with routeTable := t }

/-- 10.0.0.0/8 via NIC 1. -/
def route8 : Route :=
  { destination := { address := ⟨[10, 0, 0, 0]⟩, prefixLen := 8 },
    gateway := Address.empty, nic := 1, sourceHint := Address.empty, mtu := 0 }

/-- 192.0.0.0/8 via NIC 2: same prefix length as `route8`. -/
def route8b : Route :=
  { destination := { address := ⟨[192, 0, 0, 0]⟩, prefixLen := 8 },
    gateway := Address.empty, nic := 2, sourceHint := Address.empty, mtu := 0 }

/-- 10.1.0.0/16 via NIC 1. -/
def route16 : Route :=
  { destination := { address := ⟨[10, 1, 0, 0]⟩, prefixLen := 16 },
    gateway := Address.empty, nic := 1, sourceHint := Address.empty, mtu := 0 }

/-- 192.168.1.0/24 via NIC 7. -/
def route24nic7 : Route :=
  { destination := { address := ⟨[192, 168, 1, 0]⟩, prefixLen := 24 },
    gateway := Address.empty, nic := 7, sourceHint := Address.empty, mtu := 0 }

/-! ## C3 -/

/-- A route-table mutation: one `AddRoute` or one `SetRouteTable` call. -/
inductive RouteOp where
  | add (route : Route)
  | set (table : List Route)
deriving Repr

/-- Apply one route-table mutation. -/
def StackState.applyRouteOp (s : StackState) : RouteOp → StackState
  | .add route => s.addRoute route
  | .set table => s.setRouteTable table

/-- Apply a sequence of route-table mutations in order. -/
def StackState.applyRouteOps (s : StackState) (ops : List RouteOp) : StackState :=
  ops.foldl StackState.applyRouteOp s

/-- C3: starting from any sorted route table (the stack starts with an
empty one), after every sequence of `AddRoute` and `SetRouteTable` calls
the table reported by `GetRouteTable` is sorted by non-increasing
destination prefix length. -/
theorem routeTable_sorted_after_ops (s : StackState) (ops : List RouteOp)
    (h : routeTableSorted s.getRouteTable) :
    routeTableSorted ((s.applyRouteOps ops).getRouteTable) := by
  induction ops generalizing s with
  | nil => exact h
  | cons op rest ih =>
    have hstep : routeTableSorted ((s.applyRouteOp op).getRouteTable) := by
      cases op with
      | add route => exact sorted_addRouteLocked route h
      | set table =>
        exact sorted_foldl_addRouteLocked table [] (by exact List.Pairwise.nil)
    exact ih _ hstep

/-- Witness for C3 at a concrete stack and operation sequence. -/
theorem routeTable_sorted_after_ops_witness :
    routeTableSorted ((emptyStack.applyRouteOps
      [RouteOp.set [route8, route16], RouteOp.add route8b]).getRouteTable) :=
  routeTable_sorted_after_ops emptyStack _ (by exact List.Pairwise.nil)

/-! ## C4 -/

/-- C4 counterexample: the claim says the inserted route appears before
every existing entry of smaller-or-equal prefix length, but first-fit
insertion leaves an existing equal-prefix entry (`route8`, prefix 8) in
front of the inserted `route8b` (prefix 8). -/
theorem addRoute_equal_prefix_cex :
    route8.destination.prefixLen ≤ route8b.destination.prefixLen ∧
    route8 ≠ route8b ∧
    ((stackWithTable [route8]).addRoute route8b).getRouteTable = [route8, route8b] := by
  decide

/-- C4 (amended): on a sorted table, `AddRoute(r)` inserts `r` immediately
before the first entry with strictly smaller prefix length (at the end if
none): every existing entry with larger-or-equal prefix length appears
before `r`, every existing entry with strictly smaller prefix length after
`r`, and the existing entries keep their relative order. -/
theorem addRoute_insert_position (s : StackState) (route : Route)
    (h : routeTableSorted s.getRouteTable) :
    ∃ t1 t2, s.getRouteTable = t1 ++ t2 ∧
      (s.addRoute route).getRouteTable = t1 ++ route :: t2 ∧
      (∀ x ∈ t1, route.destination.prefixLen ≤ x.destination.prefixLen) ∧
      (∀ x ∈ t2, x.destination.prefixLen < route.destination.prefixLen) :=
  addRouteLocked_split_sorted s.routeTable route h

/-- Witness for C4 at a concrete sorted table. -/
theorem addRoute_insert_position_witness :
    ∃ t1 t2, (stackWithTable [route16, route8]).getRouteTable = t1 ++ t2 ∧
      ((stackWithTable [route16, route8]).addRoute route8b).getRouteTable
        = t1 ++ route8b :: t2 ∧
      (∀ x ∈ t1, route8b.destination.prefixLen ≤ x.destination.prefixLen) ∧
      (∀ x ∈ t2, x.destination.prefixLen < route8b.destination.prefixLen) :=
  addRoute_insert_position (stackWithTable [route16, route8]) route8b (by decide)

/-! ## C5 -/

/-- C5: `RemoveRoutes(p)` removes exactly the entries matching `p` (the
survivors are the table filtered by `¬ p`, in their previous relative
order) and returns the number of removed entries. -/
theorem removeRoutes_removes_matching (s : StackState) (m : Route → Bool) :
    (s.removeRoutes m).1 = (s.getRouteTable.filter m).length ∧
    ((s.removeRoutes m).2).getRouteTable = s.getRouteTable.filter (fun r => !(m r)) := by
  refine ⟨?_, ?_⟩ <;>
    simp [StackState.removeRoutes, StackState.getRouteTable, removeRoutesLocked_eq]

/-! ## C6 -/

/-- C6 counterexample: when the table already contains an entry equal to
`r`, `AddRoute(r)` followed by `RemoveRoutes(x == r)` removes the original
copy too, so the table does not return to its previous value. -/
theorem addRoute_removeRoutes_duplicate_cex :
    (((stackWithTable [route8]).addRoute route8).removeRoutes
        (fun x => x == route8)).2.getRouteTable = [] ∧
    (stackWithTable [route8]).getRouteTable = [route8] ∧
    ([] : List Route) ≠ [route8] := by
  decide

/-- C6 (amended): provided the table contains no entry equal to `r`,
`AddRoute(r)` followed by `RemoveRoutes(x == r)` restores the table to its
previous value. -/
theorem addRoute_removeRoutes_roundtrip (s : StackState) (route : Route)
    (h : route ∉ s.getRouteTable) :
    (((s.addRoute route).removeRoutes (fun x => x == route)).2).getRouteTable
      = s.getRouteTable := by
  obtain ⟨t1, t2, heq, hadd⟩ := addRouteLocked_split s.routeTable route
  have h' : route ∉ s.routeTable := h
  have h1 : ∀ x ∈ t1, (!(x == route)) = true := by
    intro x hx
    have hne : x ≠ route := by
      rintro rfl
      exact h' (heq ▸ List.mem_append.mpr (Or.inl hx))
    simp [hne]
  have h2 : ∀ x ∈ t2, (!(x == route)) = true := by
    intro x hx
    have hne : x ≠ route := by
      rintro rfl
      exact h' (heq ▸ List.mem_append.mpr (Or.inr hx))
    simp [hne]
  simp only [StackState.removeRoutes, StackState.addRoute, StackState.getRouteTable,
    removeRoutesLocked_eq, hadd, List.filter_append, List.filter_cons]
  simp [List.filter_eq_self.mpr h1, List.filter_eq_self.mpr h2, heq]

/-- Witness for C6 at a concrete table not containing the added route. -/
theorem addRoute_removeRoutes_roundtrip_witness :
    (((stackWithTable [route8]).addRoute route16).removeRoutes
        (fun x => x == route16)).2.getRouteTable
      = (stackWithTable [route8]).getRouteTable :=
  addRoute_removeRoutes_roundtrip (stackWithTable [route8]) route16 (by decide)

/-! ## NIC samples and lemmas -/

/-- An attached, open link endpoint. -/
def sampleLink : LinkEP := { attached := true, closed := false }

/-- NIC 1, enabled, address 10.0.0.1 on IPv4, no coordinator. -/
def nic1 : NICState :=
  { id := 1, name := "eth0", enabled := true,
    addrs := [(ipv4ProtocolNumber, ⟨[10, 0, 0, 1]⟩)], forwardingProtos := [],
    coordinatorDel := none, removeErr := none, link := sampleLink }

/-- NIC 7, enabled, attached to a coordinator whose `DelNIC` fails. -/
def nic7coord : NICState :=
  { id := 7, name := "bond0", enabled := true, addrs := [], forwardingProtos := [],
    coordinatorDel := some (some .aborted), removeErr := none, link := sampleLink }

/-- A stack holding NIC 7 (coordinated, failing `DelNIC`) and routes via
NIC 7 and NIC 1. -/
def stackN7 : StackState :=
  { emptyStack with nics := [nic7coord], routeTable := [route24nic7, route8] }

/-- A stack holding NIC 1 and routes via NIC 1 and NIC 2. -/
def stackN1 : StackState :=
  { emptyStack with nics := [nic1], routeTable := [route16, route8b] }

/-- A stack holding just NIC 1. -/
def stackNic1Only : StackState :=
  { emptyStack with nics := [nic1] }

/-- A stack holding NIC 1 and a route via NIC 1. -/
def stackC10 : StackState :=
  { emptyStack with nics := [nic1], routeTable := [route16] }

lemma find?_filter_ne_nic (l : List NICState) (id : Nat) :
    (l.filter fun n => n.id != id).find? (fun n => n.id == id) = none := by
  rw [List.find?_eq_none]
  intro x hx
  have hmem := (List.mem_filter.mp hx).2
  simp only [bne_iff_ne, ne_eq] at hmem
  simp [hmem]

/-! ## C2 -/

/-- C2 counterexample: on a stack whose NIC 7 hangs off a coordinator whose
external `DelNIC` fails, `RemoveNIC(7)` deletes the NIC from the map but
returns before the route purge, so a route with `NIC == 7` survives —
contradicting the claim that a present NIC's removal always purges its
routes. -/
theorem removeNIC_coordinator_cex :
    (stackN7.findNIC 7).isSome = true ∧
    (stackN7.removeNIC 7).2.hasNIC 7 = false ∧
    route24nic7 ∈ (stackN7.removeNIC 7).2.routeTable ∧
    route24nic7.nic = 7 := by
  decide

/-- C2 (amended): if the NIC is present and its coordinator detach (when it
has a coordinator) does not fail, `RemoveNIC(id)` deletes the NIC and
purges exactly the routes with `NIC == id`, so afterwards `HasNIC(id)` is
false and no route with `NIC == id` remains; if the NIC is absent,
`RemoveNIC(id)` returns `UnknownNICID` and changes nothing. -/
theorem removeNIC_spec (s : StackState) (id : Nat) :
    (s.findNIC id = none → s.removeNIC id = (some .unknownNICID, s)) ∧
    (∀ nic, s.findNIC id = some nic →
      (∀ e, nic.coordinatorDel ≠ some (some e)) →
      (s.removeNIC id).2.nics = s.nics.filter (fun n => n.id != id) ∧
      (s.removeNIC id).2.hasNIC id = false ∧
      (s.removeNIC id).2.routeTable = s.routeTable.filter (fun r => r.nic != id)) := by
  constructor
  · intro hnone
    simp [StackState.removeNIC, hnone]
  · intro nic hfind hdel
    have hstate : (s.removeNIC id).2 =
        { s with nics := s.nics.filter (fun n => n.id != id),
                 routeTable := s.routeTable.filter (fun r => r.nic != id) } := by
      rcases hc : nic.coordinatorDel with _ | e?
      · rcases hr : nic.removeErr with _ | e <;>
          simp [StackState.removeNIC, hfind, hc, hr]
      · rcases e? with _ | e
        · rcases hr : nic.removeErr with _ | e <;>
            simp [StackState.removeNIC, hfind, hc, hr]
        · exact absurd hc (hdel e)
    refine ⟨by rw [hstate], ?_, by rw [hstate]⟩
    rw [hstate]
    simp only [StackState.hasNIC, StackState.findNIC]
    rw [find?_filter_ne_nic]
    rfl

/-- Witness for C2 on a concrete stack with NIC 1 and one route through
NIC 1 and one through NIC 2. -/
theorem removeNIC_spec_witness :
    (stackN1.removeNIC 1).2.hasNIC 1 = false ∧
    (stackN1.removeNIC 1).2.routeTable
      = stackN1.routeTable.filter (fun r => r.nic != 1) :=
  ⟨((removeNIC_spec _ 1).2 nic1 (by decide) (fun _ h => Option.noConfusion h)).2.1,
   ((removeNIC_spec _ 1).2 nic1 (by decide) (fun _ h => Option.noConfusion h)).2.2⟩

/-! ## C7 -/

/-- C7: `CreateNICWithOptions(id, ep, opts)` fails with `InvalidNICID` when
`id == 0`; with a non-zero id it fails with `DuplicateNICID` when the id is
already present, or when `opts.Name` is non-empty and equal to an existing
NIC's name; in every failure case the stack is unchanged (no NIC added). -/
theorem createNIC_failure_spec (s : StackState) (id : Nat) (ep : LinkEP)
    (opts : NICOptions) :
    (id = 0 → s.createNICWithOptions id ep opts = (some .invalidNICID, s)) ∧
    (id ≠ 0 → s.hasNIC id = true →
      s.createNICWithOptions id ep opts = (some .duplicateNICID, s)) ∧
    (id ≠ 0 → s.hasNIC id = false → opts.name ≠ "" →
      s.nics.any (fun n => n.name == opts.name) = true →
      s.createNICWithOptions id ep opts = (some .duplicateNICID, s)) := by
  refine ⟨?_, ?_, ?_⟩
  · intro h0
    simp [StackState.createNICWithOptions, h0]
  · intro h0 hdup
    simp only [StackState.hasNIC] at hdup
    simp [StackState.createNICWithOptions, h0, hdup]
  · intro h0 habs hname hcoll
    simp only [StackState.hasNIC] at habs
    simp [StackState.createNICWithOptions, h0, habs, hname, hcoll]

/-- Witness for C7: creating NIC 2 with the name of the existing NIC 1
fails with `DuplicateNICID` and adds nothing. -/
theorem createNIC_failure_spec_witness :
    stackNic1Only.createNICWithOptions 2 sampleLink { name := "eth0", disabled := false }
      = (some .duplicateNICID, stackNic1Only) :=
  (createNIC_failure_spec stackNic1Only 2 sampleLink
      { name := "eth0", disabled := false }).2.2
    (by decide) (by decide) (by decide) (by decide)

/-! ## C8 -/

/-- C8: on a stack constructed without a raw factory, `NewRawEndpoint`
returns `NotPermitted` for every transport protocol, network protocol and
associated flag, and `NewPacketEndpoint` returns `NotPermitted` for every
cooked flag and network protocol; no endpoint is created. -/
theorem rawEndpoint_notPermitted (s : StackState) (transport network : Nat)
    (associated cooked : Bool) (netProto : Nat) (h : s.hasRawFactory = false) :
    s.newRawEndpoint transport network associated = .error .notPermitted ∧
    s.newPacketEndpoint cooked netProto = .error .notPermitted := by
  constructor <;> simp [StackState.newRawEndpoint, StackState.newPacketEndpoint, h]

/-- Witness for C8 on the raw-factory-less `emptyStack`. -/
theorem rawEndpoint_notPermitted_witness :
    emptyStack.newRawEndpoint 6 ipv4ProtocolNumber true = .error .notPermitted ∧
    emptyStack.newPacketEndpoint true ipv4ProtocolNumber = .error .notPermitted :=
  rawEndpoint_notPermitted emptyStack 6 ipv4ProtocolNumber true true
    ipv4ProtocolNumber rfl

/-! ## C9 -/

/-- C9: with a non-zero `nicID` naming a present NIC, `CheckLocalAddress`
returns `nicID` for IPv4 regardless of the address — the per-address check
runs only for non-IPv4 protocols (where the result is `nicID` exactly when
the NIC owns the address, else 0). -/
theorem checkLocalAddress_ipv4_spec (s : StackState) (nicID : Nat) (addr : Address)
    (proto : Nat) (nic : NICState) (hid : nicID ≠ 0)
    (hfind : s.findNIC nicID = some nic) :
    s.checkLocalAddress nicID ipv4ProtocolNumber addr = nicID ∧
    (proto ≠ ipv4ProtocolNumber →
      s.checkLocalAddress nicID proto addr
        = if nic.checkLocalAddress proto addr then nicID else 0) := by
  have hnid : nic.id = nicID := by
    have := List.find?_some hfind
    simpa using this
  constructor
  · simp [StackState.checkLocalAddress, hid, hfind, hnid]
  · intro hproto
    simp [StackState.checkLocalAddress, hid, hfind, hnid, hproto]

/-- Witness for C9: NIC 1 owns only 10.0.0.1, yet `CheckLocalAddress` on
IPv4 reports NIC 1 for the unassigned address 192.0.2.9 as well. -/
theorem checkLocalAddress_ipv4_spec_witness :
    stackNic1Only.checkLocalAddress 1 ipv4ProtocolNumber ⟨[192, 0, 2, 9]⟩ = 1 :=
  (checkLocalAddress_ipv4_spec stackNic1Only 1 ⟨[192, 0, 2, 9]⟩
    ipv6ProtocolNumber nic1 (by decide) (by decide)).1

/-! ## C10 -/

/-- C10: `SetNICStack(id, peer)` with the stack itself as peer returns
`(id, nil)` and leaves the whole stack state — NIC map, route table and
link endpoints — unchanged. -/
theorem setNICStack_self_noop (s : StackState) (id : Nat) (nic : NICState)
    (hfind : s.findNIC id = some nic) :
    s.setNICStack id .self = ((id, none), s, .self) := by
  simp [StackState.setNICStack, hfind]

/-- Witness for C10 on a concrete stack containing NIC 1 and a route. -/
theorem setNICStack_self_noop_witness :
    stackC10.setNICStack 1 .self = ((1, none), stackC10, .self) :=
  setNICStack_self_noop stackC10 1 nic1 (by decide)

/-! ## C1 -/

/-- The direct-route precondition of `FindRoute`'s `id != 0 && !needRoute`
branch (stack.go:1491-1507): the NIC is present, enabled, and yields an
address endpoint. -/
def directNICOK (s : StackState) (id : Nat) (la ra : Address) (proto : Nat) : Bool :=
  match s.findNIC id with
  | some nic => nic.enabled && (s.getAddressEP nic la ra Address.empty proto).isSome
  | none => false

/-- NIC 1, disabled, owning ::1 on IPv6. -/
def nic1v6lo : NICState :=
  { id := 1, name := "lo1", enabled := false,
    addrs := [(ipv6ProtocolNumber, ipv6Loopback)], forwardingProtos := [],
    coordinatorDel := none, removeErr := none, link := sampleLink }

/-- A handle-local stack holding only the disabled NIC 1. -/
def stackHL : StackState :=
  { emptyStack with handleLocal := true, nics := [nic1v6lo] }

/-- C1 counterexample: on a stack with `handleLocal` set, the local-route
attempt (stack.go:1483-1487) runs before the direct-route branch. With
NIC 1 present but disabled and owning ::1, the claim requires
`FindRoute(1, ::1, ::1, IPv6, false)` to fail with `BadLocalAddress`
(loopback remote, NIC not enabled), yet the code returns the local route. -/
theorem findRoute_handleLocal_cex :
    stackHL.checkNetworkProtocol ipv6ProtocolNumber = true ∧
    remoteIsLoopback ipv6Loopback = true ∧
    remoteNeedsRoute ipv6Loopback = false ∧
    (stackHL.findNIC 1).map NICState.enabled = some false ∧
    stackHL.findRoute 1 ipv6Loopback ipv6Loopback ipv6ProtocolNumber false
      = .ok (makeLocalRoute ipv6ProtocolNumber ipv6Loopback ipv6Loopback 1 1
          ipv6Loopback) := by
  refine ⟨by decide, by decide, by decide, by decide, ?_⟩
  rfl

/-- C1 (amended): `FindRoute` returns `UnknownProtocol` whenever the
network protocol is not registered; and — on a stack whose `handleLocal`
flag is false, so that no local route preempts the direct branch —
whenever the protocol is registered, `id != 0`, and the remote address is
link-local, local-broadcast, multicast or loopback: if the NIC `id` is
present, enabled and yields an address endpoint, the result is a route
with outgoing NIC `id`, empty gateway and MTU 0; otherwise the error is
`BadLocalAddress` for a loopback remote and `NetworkUnreachable` in all
other cases. -/
theorem findRoute_direct_spec (s : StackState) (id : Nat) (la ra : Address)
    (proto : Nat) (ml : Bool) :
    (s.checkNetworkProtocol proto = false →
      s.findRoute id la ra proto ml = .error .unknownProtocol) ∧
    (s.checkNetworkProtocol proto = true → s.handleLocal = false → id ≠ 0 →
      remoteNeedsRoute ra = false →
      (∀ nic epAddr, s.findNIC id = some nic → nic.enabled = true →
        s.getAddressEP nic la ra Address.empty proto = some epAddr →
        s.findRoute id la ra proto ml
          = .ok { netProto := proto,
                  localAddr := if la.bitLen == 0 then epAddr else la,
                  remoteAddr := ra, localAddressNIC := id, outgoingNIC := id,
                  gateway := Address.empty, mtu := 0 }) ∧
      (directNICOK s id la ra proto = false →
        s.findRoute id la ra proto ml
          = .error (if remoteIsLoopback ra then .badLocalAddress
              else .networkUnreachable))) := by
  constructor
  · intro h
    simp [StackState.findRoute, h]
  · intro hreg hhl hid hnr
    have hid' : (id != 0) = true := by simpa using hid
    constructor
    · intro nic epAddr hfind hen hep
      have hnid : nic.id = id := by simpa using List.find?_some hfind
      simp [StackState.findRoute, hreg, hhl, hid', hnr, hfind, hen, hep, makeRoute, hnid]
    · intro hno
      unfold directNICOK at hno
      rcases hfind : s.findNIC id with _ | nic
      · rw [hfind] at hno
        simp [StackState.findRoute, hreg, hhl, hid', hnr, hfind, remoteIsLoopback]
        split <;> rfl
      · rw [hfind] at hno
        have hno' : (nic.enabled
            && (s.getAddressEP nic la ra Address.empty proto).isSome) = false := hno
        rcases hen : nic.enabled with _ | _
        · simp [StackState.findRoute, hreg, hhl, hid', hnr, hfind, hen, remoteIsLoopback]
          split <;> rfl
        · rw [hen] at hno'
          simp only [Bool.true_and] at hno'
          have hep : s.getAddressEP nic la ra Address.empty proto = none := by
            rcases h : s.getAddressEP nic la ra Address.empty proto with _ | v
            · rfl
            · rw [h] at hno'
              simp at hno'
          simp [StackState.findRoute, hreg, hhl, hid', hnr, hfind, hen, hep,
            remoteIsLoopback]
          split <;> rfl

/-- Witness for C1 at the spec's scenario S6: NIC 1 with 10.0.0.1, no
routes, multicast remote 224.0.0.1 — a direct route through NIC 1 with
empty gateway and MTU 0. -/
theorem findRoute_direct_spec_witness :
    stackNic1Only.findRoute 1 ⟨[10, 0, 0, 1]⟩ ⟨[224, 0, 0, 1]⟩ ipv4ProtocolNumber false
      = .ok { netProto := ipv4ProtocolNumber, localAddr := ⟨[10, 0, 0, 1]⟩,
              remoteAddr := ⟨[224, 0, 0, 1]⟩, localAddressNIC := 1, outgoingNIC := 1,
              gateway := Address.empty, mtu := 0 } :=
  ((findRoute_direct_spec stackNic1Only 1 ⟨[10, 0, 0, 1]⟩ ⟨[224, 0, 0, 1]⟩
        ipv4ProtocolNumber false).2
      (by decide) (by decide) (by decide) (by decide)).1 nic1 ⟨[10, 0, 0, 1]⟩
    (by decide) (by decide) (by decide)

end GvisorStack
